import Mathlib

/-!
Verification of the content-acquisition and summarization pipeline of the
`article_summary` repository (Flask backend, `src/flask_app/app.py`).

The Python code is shallowly embedded: dictionaries of extracted content
become a structure of optional string fields, network calls become explicit
oracle parameters, Python exceptions that the code catches become the value
the handler returns, and each function records the outbound calls it makes
as a list of effects.
-/

namespace ArticleSummary

/-! ## Python string primitives

`str.strip`, slicing `s[:n]` and truthiness, modelled over `List Char`.
-/

/-- Whitespace test used by `str.strip` and whitespace collapsing. -/
def wsChar (c : Char) : Bool := c.isWhitespace

/-- Remove trailing whitespace characters from a character list. -/
def trimTrailingWs : List Char → List Char
  | [] => []
  | c :: rest =>
    match trimTrailingWs rest with
    | [] => if wsChar c then [] else [c]
    | r => c :: r

/-- `str.strip()` on a character list: drop leading and trailing whitespace. -/
def pyStripChars (l : List Char) : List Char :=
  trimTrailingWs (l.dropWhile wsChar)

/-- Python `s.strip()`. -/
def pyStrip (s : String) : String := ⟨pyStripChars s.data⟩

/-- Python slice `s[:n]`. -/
def pySlice (s : String) (n : Nat) : String := ⟨s.data.take n⟩

/-- Truthiness of a Python string: non-empty. -/
def pyTruthy (s : String) : Bool := s ≠ ""

/-- Truthiness of `dict.get(key)`: the key is present with a non-empty value. -/
def optTruthy : Option String → Bool
  | none => false
  | some s => s ≠ ""

/-! ## Extracted-content dictionaries

The extractor functions in `app.py` return Python dicts; the keys the
pipeline reads are `title`, `text`, `description`, `source_url` and
`source_name`.  A `none` field is an absent key; the empty dict `{}` that
every `except` branch returns is `Content.empty`.
-/

/-- An extracted-content dictionary (`Dict[str, Any]` in `app.py`). -/
structure Content where
  title : Option String := none
  text : Option String := none
  description : Option String := none
  source_url : Option String := none
  source_name : Option String := none
deriving Repr, DecidableEq

/-- The empty dict `{}` returned by the extraction failure paths. -/
def Content.empty : Content := {}

/-- `len(content['text'].strip())` with an absent key reading as `''`. -/
def strippedTextLen (c : Content) : Nat :=
  (pyStrip (c.text.getD "")).length

/-- The guard `content.get('text') and len(content['text'].strip()) > n`
from `ContentExtractor.extract_content`. -/
def textPasses (c : Content) (n : Nat) : Bool :=
  optTruthy c.text && decide (n < strippedTextLen c)

/-- An HTTP fetch outcome, as seen by the extraction strategies. -/
structure FetchResult where
  statusCode : Nat
  body : String
deriving Repr, DecidableEq

/-- `ContentExtractor.extract_with_newspaper`: `article.download()` raises on
an HTTP error status, the `except` branch returns `{}`; otherwise the parsed
article (`parsed`, the library outcome) is returned. -/
def extract_with_newspaper (fetch : FetchResult) (parsed : Content) : Content :=
  if 400 ≤ fetch.statusCode then Content.empty else parsed

/-- `ContentExtractor.extract_with_trafilatura`: `trafilatura.fetch_url`
returns nothing on an HTTP error status and the function returns `{}`;
otherwise the extracted text and metadata (`parsed`). -/
def extract_with_trafilatura (fetch : FetchResult) (parsed : Content) : Content :=
  if 400 ≤ fetch.statusCode then Content.empty else parsed

/-- `ContentExtractor.extract_with_beautifulsoup`: `raise_for_status()`
raises on a 4xx/5xx status and the `except` branch returns `{}`; otherwise
the soup-scraped result (`parsed`). -/
def extract_with_beautifulsoup (fetch : FetchResult) (parsed : Content) : Content :=
  if 400 ≤ fetch.statusCode then Content.empty else parsed

/-- `ContentExtractor.extract_content`, applied to the results `r1`, `r2`,
`r3` of the three strategies (newspaper3k, trafilatura, BeautifulSoup) for
the requested URL. -/
def extract_content (r1 r2 r3 : Content) : Content :=
  if textPasses r1 100 then r1
  else if textPasses r2 100 then r2
  else if textPasses r3 50 then r3
  else if optTruthy r3.title || optTruthy r3.description then
    { r3 with text := some ("Title: " ++ r3.title.getD "N/A" ++ "\nDescription: " ++ r3.description.getD "N/A") }
  else Content.empty

/-- `textPasses` is exactly the threshold test on the stripped text length:
a stripped length above `n` forces the `text` key to be present and truthy. -/
theorem textPasses_iff (c : Content) (n : Nat) :
    textPasses c n = true ↔ n < strippedTextLen c := by
  unfold textPasses optTruthy
  cases h : c.text with
  | none =>
    simp [strippedTextLen, h, pyStrip, pyStripChars, trimTrailingWs]
  | some s =>
    by_cases hs : s = ""
    · subst hs
      simp [strippedTextLen, h, pyStrip, pyStripChars, trimTrailingWs]
    · simp [strippedTextLen, h, hs]

/-! ## Outbound calls

Each embedded function returns, next to its value, the list of external
calls it performed, so that "X is queried only when …" and "the call to the
model is skipped" are statements about the effect list.
-/

/-- An outbound network call made by the pipeline. -/
inductive Effect
  | wikiSearch (keyword : String)
  | ddgSearch (keyword : String)
  | urlFetch (url : String)
  | modelCall (prompt : String)
deriving Repr, DecidableEq

/-- What the Wikipedia API would answer: the `opensearch` title list for a
keyword and the plain-text extract for a title (`""` when there is none). -/
structure WikiApi where
  searchTitles : String → List String
  extract : String → String

/-- The decoded JSON of a DuckDuckGo Instant Answer response; absent keys
are `none`. -/
structure DDGResponse where
  Abstract : Option String := none
  Heading : Option String := none
  AbstractURL : Option String := none
  AbstractSource : Option String := none
  Definition : Option String := none
  DefinitionURL : Option String := none
  DefinitionSource : Option String := none
  RelatedTopics : List String := []

/-- The attributes `RAGProcessor.__init__` sets on the instance.  It assigns
only `self.content_extractor`; in particular no `session` attribute exists,
so `session` is `none` for the instance the app constructs. -/
structure RAGProcessorState where
  session : Option Unit
deriving Repr, DecidableEq

/-- The `rag_processor` instance built at module load:
`__init__` sets `self.content_extractor = ContentExtractor()` and nothing
else, so the `session` attribute is absent. -/
def ragProcessorInit : RAGProcessorState := ⟨none⟩

/-- `RAGProcessor.search_wikipedia`.  Evaluating `self.session.get(...)`
raises `AttributeError` when the attribute is absent; the surrounding
`except Exception` turns any exception into `None`, before any request is
sent.  With a session present, the code returns the extract of the first
opensearch title when non-empty, else `None`. -/
def search_wikipedia (self : RAGProcessorState) (api : WikiApi) (keyword : String) :
    Option String × List Effect :=
  match self.session with
  | none => (none, [])
  | some _ =>
    match api.searchTitles keyword with
    | [] => (none, [Effect.wikiSearch keyword])
    | title :: _ =>
      let content := api.extract title
      if content ≠ "" then (some content, [Effect.wikiSearch keyword])
      else (none, [Effect.wikiSearch keyword])

/-- `RAGProcessor.search_duckduckgo_instant`: builds a content dict from the
`Abstract` field when truthy, else from the `Definition` field when truthy,
else returns `None`.  (It creates its own local `requests.Session`, so the
missing-attribute problem of `search_wikipedia` does not arise here.) -/
def search_duckduckgo_instant (resp : DDGResponse) (keyword : String) :
    Option Content × List Effect :=
  let eff := [Effect.ddgSearch keyword]
  if optTruthy resp.Abstract then
    (some { title := some (resp.Heading.getD keyword),
            text := some (resp.Abstract.getD ""),
            source_url := some (resp.AbstractURL.getD ""),
            source_name := some (resp.AbstractSource.getD "DuckDuckGo"),
            description := some ("Information about " ++ keyword) }, eff)
  else if optTruthy resp.Definition then
    (some { title := some keyword,
            text := some (resp.Definition.getD ""),
            source_url := some (resp.DefinitionURL.getD ""),
            source_name := some (resp.DefinitionSource.getD "DuckDuckGo"),
            description := some ("Definition of " ++ keyword) }, eff)
  else (none, eff)

/-- A Python value flowing out of `get_content_from_keyword`: the Wikipedia
path returns a plain string, the DuckDuckGo path returns a dict. -/
inductive PyVal
  | str (s : String)
  | dict (c : Content)
deriving Repr, DecidableEq

/-- Truthiness of a `PyVal` (`if not content_data`). -/
def pyValTruthy : PyVal → Bool
  | .str s => s ≠ ""
  | .dict c => c ≠ Content.empty

/-- `RAGProcessor.get_content_from_keyword`: Wikipedia first, DuckDuckGo
only when that produced nothing truthy. -/
def get_content_from_keyword (self : RAGProcessorState) (wiki : WikiApi)
    (ddg : DDGResponse) (keyword : String) : Option PyVal × List Effect :=
  let (w, e1) := search_wikipedia self wiki keyword
  match w with
  | some s => (some (.str s), e1)
  | none =>
    let (d, e2) := search_duckduckgo_instant ddg keyword
    (d.map .dict, e1 ++ e2)

/-! ## Summary generation -/

/-- Substring test (`needle in haystack` in Python). -/
def listContains (haystack needle : List Char) : Bool :=
  needle.isPrefixOf haystack ||
    match haystack with
    | [] => false
    | _ :: t => listContains t needle

/-- Python `sub in s` on strings. -/
def containsSub (s sub : String) : Bool := listContains s.data sub.data

/-- The fixed message returned when the content is too short and carries no
title or description (line 331 of `app.py`). -/
def insufficientContentMsg (query_hint : String) : String :=
  "**Unable to generate summary**\n\nInsufficient content available for '" ++ query_hint ++ "'. Please try a different source or provide more detailed information."

/-- The message returned when the model response is empty (line 381). -/
def summaryGenErrorMsg (query_hint : String) : String :=
  "**Summary Generation Error**\n\nUnable to generate summary for '" ++ query_hint ++ "'. Please try again."

/-- The message the `except` branch of `generate_enhanced_summary` builds
from the exception text (line 385). -/
def generationExnMsg (query_hint exn : String) : String :=
  "**Error**\n\nAn error occurred while generating the summary for '" ++ query_hint ++ "': " ++ exn

/-- The prompt f-string of `generate_enhanced_summary` (lines 334-356),
with the main text already sliced to `main_text[:4000]`. -/
def buildPrompt (query_hint content_type source_name title description main_text_slice : String) : String :=
  "You are an expert content analyst. Create a comprehensive, well-structured summary in markdown format.\n\n**Query:** " ++ query_hint
    ++ "\n**Content Type:** " ++ content_type
    ++ "\n**Source:** " ++ source_name
    ++ "\n\n**Instructions:**\n1. Create a detailed, informative summary (aim for 800-1200 words)\n2. Use proper markdown formatting with headers, lists, and emphasis\n3. Structure the content with clear sections using ## headers\n4. Include key facts, important details, and main points\n5. Add a \"Sources\" section at the end with proper citations\n6. Make it engaging and comprehensive like a Perplexity AI response\n7. If the content is limited, use your knowledge to expand on the topic while clearly indicating what comes from the source vs general knowledge\n\n**Content to analyze:**\n---\nTitle: " ++ title
    ++ "\nDescription: " ++ description
    ++ "\nMain Content: " ++ main_text_slice
    ++ "  # Limit to avoid token overflow\n---\n\nPlease provide a thorough, markdown-formatted summary:"

/-- Outcome of `client.models.generate_content`: a response whose `text` is
`t` (possibly empty, which the code treats as a failure), or an exception. -/
inductive ModelResult
  | ok (t : String)
  | exn (msg : String)

/-- Post-processing of a truthy model response (lines 368-375): strip, then
append a Sources section unless one is already present. -/
def postProcessSummary (t source_name source_url : String) : String :=
  let summary := pyStrip t
  if pyTruthy source_url && !(containsSub summary "## Sources") && !(containsSub summary "## References") then
    summary ++ "\n\n## Sources\n\n- [" ++ source_name ++ "](" ++ source_url ++ ")"
  else if pyTruthy source_name && !(pyTruthy source_url) then
    summary ++ "\n\n## Sources\n\n- " ++ source_name
  else summary

/-- Lines 360-385: call the model with the prompt and turn its response
into the returned summary string. -/
def modelCallStep (prompt source_name source_url query_hint : String)
    (model : String → ModelResult) : String × List Effect :=
  match model prompt with
  | .ok t =>
    if pyTruthy t then (postProcessSummary t source_name source_url, [.modelCall prompt])
    else (summaryGenErrorMsg query_hint, [.modelCall prompt])
  | .exn m => (generationExnMsg query_hint m, [.modelCall prompt])

/-- `RAGProcessor.generate_enhanced_summary`.  A `PyVal.str` input (the dead
Wikipedia path) raises `AttributeError` at `content_data.get('text', '')`,
which the `except` branch converts into the error message; a dict input
follows lines 316-385.  `model` is the generative-model oracle; the effect
list records whether it was called and with which prompt. -/
def generate_enhanced_summary (content_data : PyVal) (query_hint content_type : String)
    (model : String → ModelResult) : String × List Effect :=
  match content_data with
  | .str _ => (generationExnMsg query_hint "'str' object has no attribute 'get'", [])
  | .dict c =>
    let main_text := c.text.getD ""
    let title := c.title.getD ""
    let description := c.description.getD ""
    let source_url := c.source_url.getD ""
    let source_name := c.source_name.getD "Unknown Source"
    let proceed : String → String × List Effect := fun mt =>
      modelCallStep (buildPrompt query_hint content_type source_name title description (pySlice mt 4000))
        source_name source_url query_hint model
    if (pyStrip main_text).length < 100 then
      if pyTruthy title || pyTruthy description then
        proceed ("Title: " ++ title ++ "\nDescription: " ++ description)
      else (insufficientContentMsg query_hint, [])
    else proceed main_text

/-! ## The `/summarize` endpoint -/

/-- A JSON field of the request body: absent, present with a non-string
value, or present with a string. -/
inductive ReqField
  | absent
  | nonStr
  | str (s : String)
deriving Repr, DecidableEq

/-- The guard `'k' in data and isinstance(data['k'], str) and data['k'].strip()`:
the field is selected when it is a string whose strip is truthy. -/
def ReqField.selected : ReqField → Option String
  | .str s => if pyStrip s ≠ "" then some s else none
  | _ => none

/-- The JSON body of a `/summarize` request, restricted to the three keys
the endpoint reads. -/
structure ReqData where
  content : ReqField
  url : ReqField
  keyword : ReqField
deriving Repr, DecidableEq

/-- The dict the endpoint builds for direct content (lines 429-435). -/
def directContentData (text_content : String) : Content :=
  { text := some text_content,
    title := some "Direct Content",
    description := some "User-provided content",
    source_name := some "Direct Input",
    source_url := some "" }

/-- `re.match(r'^https?://', url)`: the URL starts with `http://` or
`https://`. -/
def startsWithHttp (url : String) : Bool :=
  ("http://".data).isPrefixOf url.data || ("https://".data).isPrefixOf url.data

/-- The external world as the endpoint sees it: the processor instance, the
two search providers, the three extraction-strategy results per URL, and
the generative model. -/
structure Env where
  self : RAGProcessorState
  wiki : WikiApi
  ddg : DDGResponse
  urlExtract : String → Content × Content × Content
  model : String → ModelResult

/-- The JSON body and status code of an endpoint response. -/
structure HttpResponse where
  statusCode : Nat
  status : String
  error : Option String := none
  summary : Option String := none
deriving Repr, DecidableEq

/-- Lines 484-502: generate the summary and wrap it in the success JSON. -/
def finishSummary (pv : PyVal) (source_identifier content_type : String)
    (model : String → ModelResult) : HttpResponse × List Effect :=
  let (summary, effs) := generate_enhanced_summary pv source_identifier content_type model
  ({ statusCode := 200, status := "success", summary := some summary }, effs)

/-- The `/summarize` endpoint `summarize_content` (lines 392-506).
`data = none` models `request.get_json()` returning nothing. -/
def summarize_content (data : Option ReqData) (env : Env) : HttpResponse × List Effect :=
  match data with
  | none => ({ statusCode := 400, status := "error", error := some "No JSON data provided" }, [])
  | some d =>
    match d.content.selected with
    | some s =>
      finishSummary (.dict (directContentData (pyStrip s))) "direct content" "content" env.model
    | none =>
      match d.url.selected with
      | some u =>
        let url := pyStrip u
        if !(startsWithHttp url) then
          ({ statusCode := 400, status := "error", error := some "Invalid URL format provided" }, [])
        else
          let (r1, r2, r3) := env.urlExtract url
          let content_data := extract_content r1 r2 r3
          if !(pyValTruthy (.dict content_data)) then
            ({ statusCode := 400, status := "error",
               error := some ("Failed to extract content from URL: " ++ url) },
             [Effect.urlFetch url])
          else
            let (resp, effs) := finishSummary (.dict content_data) url "url" env.model
            (resp, Effect.urlFetch url :: effs)
      | none =>
        match d.keyword.selected with
        | some k =>
          let keyword := pyStrip k
          if keyword.length > 200 then
            ({ statusCode := 400, status := "error",
               error := some "Keyword is too long (max 200 chars)" }, [])
          else
            let (res, e1) := get_content_from_keyword env.self env.wiki env.ddg keyword
            match res with
            | none =>
              ({ statusCode := 404, status := "error",
                 error := some ("Could not find any information for the keyword: '" ++ keyword ++ "'") }, e1)
            | some pv =>
              let (resp, e2) := finishSummary pv keyword "keyword" env.model
              (resp, e1 ++ e2)
        | none =>
          ({ statusCode := 400, status := "error",
             error := some "Request must contain a non-empty 'content', 'url', or 'keyword' field." }, [])

/-! ## The text normalizer

The spec's Text Normalizer (§4.3) is not present in `src/`: the only
normalization the Flask revision performs is `response.text.strip()`.  The
full normalizer is therefore modelled from the spec below, and its
idempotence proved about that model.
-/

/-- A markdown marker stripped by the normalizer: headers (`#`),
emphasis (`*`, `_`, backtick), list markers (`-`, `+`) and
blockquotes (`>`). -/
def mdChar (c : Char) : Bool :=
  c = '#' || c = '*' || c = '_' || c = '`' || c = '-' || c = '+' || c = '>'

/-- The character whitelist kept by the normalizer: alphanumerics,
whitespace and basic punctuation. -/
def whitelisted (c : Char) : Bool :=
  c.isAlphanum || c.isWhitespace || c = '.' || c = ',' || c = '!' || c = '?'
    || c = ';' || c = ':' || c = '(' || c = ')' || c = '\'' || c = '"'

/-- Drop HTML tags: text from a `<` up to the next `>` is removed; the flag
records whether the scan is inside a tag. -/
def stripHtmlTags : Bool → List Char → List Char
  | _, [] => []
  | true, c :: rest => if c = '>' then stripHtmlTags false rest else stripHtmlTags true rest
  | false, c :: rest => if c = '<' then stripHtmlTags true rest else c :: stripHtmlTags false rest

/-- Remove markdown markers. -/
def stripMarkdown (l : List Char) : List Char := l.filter (fun c => !(mdChar c))

/-- Keep only whitelisted characters. -/
def keepWhitelisted (l : List Char) : List Char := l.filter whitelisted

/-- Collapse every whitespace run into a single space; the flag records
whether the previous kept character position ended in whitespace. -/
def squeezeWs : Bool → List Char → List Char
  | _, [] => []
  | prevWs, c :: rest =>
    if wsChar c then
      if prevWs then squeezeWs true rest else ' ' :: squeezeWs true rest
    else c :: squeezeWs false rest

/-- Modelled from the spec: the Text Normalizer of §4.3 ("regex-based
stripping of HTML tags, markdown headers/emphasis/list markers, and
non-whitelisted characters, followed by whitespace collapse and trim"),
which is absent from `src/flask_app/app.py` (the cited lines only run
`response.text.strip()`). -/
def clean_text (s : String) : String :=
  ⟨trimTrailingWs ((squeezeWs false (keepWhitelisted (stripMarkdown (stripHtmlTags false s.data)))).dropWhile wsChar)⟩

/-! ### Lemmas towards idempotence of `clean_text` -/

/-- `stripHtmlTags` outside a tag is the identity on tag-free text. -/
theorem stripHtmlTags_eq_self {l : List Char} (h : '<' ∉ l) :
    stripHtmlTags false l = l := by
  induction l with
  | nil => rfl
  | cons c rest ih =>
    have hc : c ≠ '<' := fun hc => h (hc ▸ List.mem_cons_self c rest)
    have hrest : '<' ∉ rest := fun hm => h (List.mem_cons_of_mem c hm)
    simp [stripHtmlTags, hc, ih hrest]

/-- Characters of a squeezed list come from the input or are the space
substituted for a whitespace run. -/
theorem mem_squeezeWs {c : Char} : ∀ (b : Bool) (l : List Char),
    c ∈ squeezeWs b l → c ∈ l ∨ c = ' '
  | _, [], h => by simp [squeezeWs] at h
  | b, x :: rest, h => by
    by_cases hx : wsChar x
    · cases b with
      | true =>
        simp only [squeezeWs, hx, if_true] at h
        rcases mem_squeezeWs true rest h with h' | h'
        · exact Or.inl (List.mem_cons_of_mem x h')
        · exact Or.inr h'
      | false =>
        simp only [squeezeWs, hx, if_true] at h
        rcases List.mem_cons.mp h with h' | h'
        · exact Or.inr h'
        · rcases mem_squeezeWs true rest h' with h'' | h''
          · exact Or.inl (List.mem_cons_of_mem x h'')
          · exact Or.inr h''
    · simp only [squeezeWs, hx, if_false] at h
      rcases List.mem_cons.mp h with h' | h'
      · exact Or.inl (h' ▸ List.mem_cons_self x rest)
      · rcases mem_squeezeWs false rest h' with h'' | h''
        · exact Or.inl (List.mem_cons_of_mem x h'')
        · exact Or.inr h''

/-- One-step unfolding of `trimTrailingWs`. -/
theorem trimTrailingWs_cons (c : Char) (l : List Char) :
    trimTrailingWs (c :: l) =
      match trimTrailingWs l with
      | [] => if wsChar c then [] else [c]
      | r => c :: r := rfl

/-- Characters survive `trimTrailingWs` only from the input. -/
theorem mem_trimTrailingWs {c : Char} : ∀ {l : List Char},
    c ∈ trimTrailingWs l → c ∈ l
  | [], h => by simp [trimTrailingWs] at h
  | x :: rest, h => by
    rw [trimTrailingWs_cons] at h
    rcases hr : trimTrailingWs rest with _ | ⟨y, ys⟩
    · rw [hr] at h
      by_cases hx : wsChar x
      · simp [hx] at h
      · simp only [hx, Bool.false_eq_true, if_false, List.mem_singleton] at h
        exact h ▸ List.mem_cons_self x rest
    · rw [hr] at h
      rcases List.mem_cons.mp h with h' | h'
      · exact h' ▸ List.mem_cons_self x rest
      · exact List.mem_cons_of_mem x (mem_trimTrailingWs (hr ▸ h'))

/-- The well-formedness the squeezer establishes: scanning with previous-
whitespace flag `b`, every whitespace character is a space and no two
whitespace characters are adjacent (nor may the list start with whitespace
when `b` is set). -/
def wsSqueezed : Bool → List Char → Bool
  | _, [] => true
  | prevWs, c :: rest =>
    if wsChar c then !prevWs && (c = ' ') && wsSqueezed true rest
    else wsSqueezed false rest

/-- A squeezed-well-formed list is a fixed point of the squeezer. -/
theorem squeezeWs_eq_self : ∀ (l : List Char) (b : Bool),
    wsSqueezed b l = true → squeezeWs b l = l
  | [], _, _ => rfl
  | c :: rest, b, h => by
    by_cases hc : wsChar c
    · simp only [wsSqueezed, hc, if_true, Bool.and_eq_true, Bool.not_eq_true',
        decide_eq_true_eq] at h
      obtain ⟨⟨hb, hsp⟩, hrest⟩ := h
      subst hb
      simp only [squeezeWs, hc, if_true, Bool.false_eq_true, if_false]
      rw [squeezeWs_eq_self rest true hrest, hsp]
    · simp only [wsSqueezed, hc, if_false] at h
      simp [squeezeWs, hc, squeezeWs_eq_self rest false h]

/-- The squeezer's output is squeezed-well-formed. -/
theorem wsSqueezed_squeezeWs : ∀ (l : List Char) (b : Bool),
    wsSqueezed b (squeezeWs b l) = true
  | [], _ => rfl
  | c :: rest, b => by
    by_cases hc : wsChar c
    · cases b with
      | true =>
        simp only [squeezeWs, hc, if_true]
        exact wsSqueezed_squeezeWs rest true
      | false =>
        simp only [squeezeWs, hc, if_true, Bool.false_eq_true, if_false]
        have hsp : wsChar ' ' = true := by decide
        simp [wsSqueezed, hsp, wsSqueezed_squeezeWs rest true]
    · simp [squeezeWs, hc, wsSqueezed, wsSqueezed_squeezeWs rest false]

/-- Squeezed-well-formedness with the flag set implies it with the flag
clear. -/
theorem wsSqueezed_false_of_true {l : List Char} (h : wsSqueezed true l = true) :
    wsSqueezed false l = true := by
  cases l with
  | nil => rfl
  | cons c rest =>
    by_cases hc : wsChar c
    · simp [wsSqueezed, hc] at h
    · simpa [wsSqueezed, hc] using h

/-- Squeezed-well-formedness survives dropping a whitespace prefix. -/
theorem wsSqueezed_dropWhile {l : List Char} (h : wsSqueezed false l = true) :
    wsSqueezed false (l.dropWhile wsChar) = true := by
  induction l with
  | nil => simpa using h
  | cons c rest ih =>
    by_cases hc : wsChar c
    · rw [List.dropWhile_cons_of_pos hc]
      simp only [wsSqueezed, hc, if_true, Bool.and_eq_true, Bool.not_eq_true',
        decide_eq_true_eq] at h
      exact ih (wsSqueezed_false_of_true h.2)
    · rwa [List.dropWhile_cons_of_neg hc]

/-- One-step unfolding of `wsSqueezed`. -/
theorem wsSqueezed_cons (b : Bool) (c : Char) (l : List Char) :
    wsSqueezed b (c :: l) =
      if wsChar c then !b && (c = ' ') && wsSqueezed true l
      else wsSqueezed false l := rfl

/-- Squeezed-well-formedness survives trimming the trailing whitespace. -/
theorem wsSqueezed_trimTrailingWs : ∀ (l : List Char) (b : Bool),
    wsSqueezed b l = true → wsSqueezed b (trimTrailingWs l) = true
  | [], _, h => h
  | c :: rest, b, h => by
    rw [trimTrailingWs_cons]
    by_cases hc : wsChar c
    · rw [wsSqueezed_cons] at h
      simp only [hc, if_true, Bool.and_eq_true, Bool.not_eq_true',
        decide_eq_true_eq] at h
      obtain ⟨⟨hb, hsp⟩, hrest⟩ := h
      subst hb
      have htail := wsSqueezed_trimTrailingWs rest true hrest
      rcases hr : trimTrailingWs rest with _ | ⟨y, ys⟩
      · simp [hc, wsSqueezed]
      · rw [hr] at htail
        rw [wsSqueezed_cons]
        have hspc : wsChar ' ' = true := by decide
        simp [hc, hsp, htail, hspc]
    · rw [wsSqueezed_cons] at h
      simp only [hc, Bool.false_eq_true, if_false] at h
      have htail := wsSqueezed_trimTrailingWs rest false h
      rcases hr : trimTrailingWs rest with _ | ⟨y, ys⟩
      · simp [hc, wsSqueezed_cons, wsSqueezed]
      · rw [hr] at htail
        rw [wsSqueezed_cons]
        simp [hc, htail]

/-- Dropping a whitespace prefix is idempotent. -/
theorem dropWhile_wsChar_idem (l : List Char) :
    (l.dropWhile wsChar).dropWhile wsChar = l.dropWhile wsChar := by
  induction l with
  | nil => rfl
  | cons c rest ih =>
    by_cases hc : wsChar c
    · rw [List.dropWhile_cons_of_pos hc]; exact ih
    · rw [List.dropWhile_cons_of_neg hc, List.dropWhile_cons_of_neg hc]

/-- `trimTrailingWs` keeps the head of the list (or empties it), so a list
without a leading-whitespace prefix stays that way. -/
theorem dropWhile_trimTrailingWs {l : List Char} (h : l.dropWhile wsChar = l) :
    (trimTrailingWs l).dropWhile wsChar = trimTrailingWs l := by
  cases l with
  | nil => rfl
  | cons c rest =>
    have hc : ¬ wsChar c = true := by
      intro hc
      rw [List.dropWhile_cons_of_pos hc] at h
      have hlen := congrArg List.length h
      have hle := (List.dropWhile_suffix (l := rest) wsChar).sublist.length_le
      simp only [List.length_cons] at hlen
      omega
    rw [trimTrailingWs_cons]
    rcases hr : trimTrailingWs rest with _ | ⟨y, ys⟩
    · simp [hc]
    · simp [List.dropWhile_cons_of_neg hc]

/-- Trimming trailing whitespace is idempotent. -/
theorem trimTrailingWs_idem : ∀ (l : List Char),
    trimTrailingWs (trimTrailingWs l) = trimTrailingWs l
  | [] => rfl
  | c :: rest => by
    have ih := trimTrailingWs_idem rest
    rw [trimTrailingWs_cons]
    rcases hr : trimTrailingWs rest with _ | ⟨y, ys⟩
    · by_cases hc : wsChar c
      · simp [hc, trimTrailingWs]
      · simp [hc, trimTrailingWs_cons, trimTrailingWs]
    · rw [hr] at ih
      show trimTrailingWs (c :: y :: ys) = c :: y :: ys
      rw [trimTrailingWs_cons, ih]

/-- A markdown marker is never whitelisted. -/
theorem mdChar_not_whitelisted {c : Char} (h : mdChar c = true) :
    whitelisted c = false := by
  simp only [mdChar, Bool.or_eq_true, decide_eq_true_eq] at h
  rcases h with ((((((h | h) | h) | h) | h) | h) | h) <;> subst h <;> decide

/-- The normalizer pipeline on character lists. -/
def normalizeChars (l : List Char) : List Char :=
  trimTrailingWs ((squeezeWs false (keepWhitelisted (stripMarkdown (stripHtmlTags false l)))).dropWhile wsChar)

theorem clean_text_data (s : String) : (clean_text s).data = normalizeChars s.data := rfl

/-- Every character the normalizer emits is whitelisted (the space
substituted for a whitespace run included). -/
theorem mem_normalizeChars_whitelisted {c : Char} {l : List Char}
    (h : c ∈ normalizeChars l) : whitelisted c = true := by
  have h1 : c ∈ (squeezeWs false (keepWhitelisted (stripMarkdown (stripHtmlTags false l)))).dropWhile wsChar :=
    mem_trimTrailingWs h
  have h2 : c ∈ squeezeWs false (keepWhitelisted (stripMarkdown (stripHtmlTags false l))) :=
    (List.dropWhile_suffix wsChar).sublist.subset h1
  rcases mem_squeezeWs false _ h2 with h3 | h3
  · exact (List.mem_filter.mp h3).2
  · subst h3; decide

/-- Idempotence of each stage on normalized output. -/
theorem normalizeChars_fixed (l : List Char) :
    normalizeChars (normalizeChars l) = normalizeChars l := by
  set out := normalizeChars l with hout
  have hwl : ∀ c ∈ out, whitelisted c = true := fun c hc =>
    mem_normalizeChars_whitelisted (hout ▸ hc)
  have hhtml : stripHtmlTags false out = out := by
    refine stripHtmlTags_eq_self (fun hmem => ?_)
    have := hwl '<' hmem
    simp [whitelisted] at this
  have hmd : stripMarkdown out = out := by
    refine List.filter_eq_self.mpr (fun c hc => ?_)
    by_cases h : mdChar c
    · exact absurd (hwl c hc) (by simp [mdChar_not_whitelisted h])
    · simp [h]
  have hkw : keepWhitelisted out = out := List.filter_eq_self.mpr hwl
  have hsq : squeezeWs false out = out := by
    apply squeezeWs_eq_self
    have h1 : wsSqueezed false (squeezeWs false (keepWhitelisted (stripMarkdown (stripHtmlTags false l)))) = true :=
      wsSqueezed_squeezeWs _ false
    have h2 := wsSqueezed_dropWhile h1
    exact wsSqueezed_trimTrailingWs _ false h2
  have hdw : out.dropWhile wsChar = out := by
    rw [hout]
    unfold normalizeChars
    exact dropWhile_trimTrailingWs (dropWhile_wsChar_idem _)
  have htr : trimTrailingWs out = out := by
    rw [hout]
    unfold normalizeChars
    exact trimTrailingWs_idem _
  calc normalizeChars out
      = trimTrailingWs ((squeezeWs false (keepWhitelisted (stripMarkdown (stripHtmlTags false out)))).dropWhile wsChar) := rfl
    _ = out := by rw [hhtml, hmd, hkw, hsq, hdw, htr]

/-- **C8.** The text normalizer (modelled from spec §4.3, absent from
`src/`) is a pure function of its input string and is idempotent:
normalizing already-normalized text yields the same text. -/
theorem clean_text_idempotent (s : String) :
    clean_text (clean_text s) = clean_text s := by
  have h : normalizeChars (normalizeChars s.data) = normalizeChars s.data :=
    normalizeChars_fixed s.data
  show (⟨normalizeChars (clean_text s).data⟩ : String) = clean_text s
  rw [clean_text_data, h]
  rfl

/-! ## Claim theorems -/

/-- The threshold test is false exactly when the stripped text length is at
or below the threshold. -/
theorem textPasses_false_iff (c : Content) (n : Nat) :
    ¬ textPasses c n = true ↔ strippedTextLen c ≤ n := by
  rw [textPasses_iff]; omega

/-- **C1.** `extract_content` tries newspaper, trafilatura, BeautifulSoup in
this fixed order; a later strategy's result is used only if every earlier
strategy's stripped text length is at or below its threshold (100, 100, 50),
and the first result whose stripped text length exceeds its threshold is
returned unchanged. -/
theorem extract_content_strategy_order (r1 r2 r3 : Content) :
    (100 < strippedTextLen r1 → extract_content r1 r2 r3 = r1) ∧
    (strippedTextLen r1 ≤ 100 → 100 < strippedTextLen r2 →
      extract_content r1 r2 r3 = r2) ∧
    (strippedTextLen r1 ≤ 100 → strippedTextLen r2 ≤ 100 → 50 < strippedTextLen r3 →
      extract_content r1 r2 r3 = r3) := by
  refine ⟨fun h1 => ?_, fun h1 h2 => ?_, fun h1 h2 h3 => ?_⟩
  · unfold extract_content
    rw [if_pos ((textPasses_iff r1 100).mpr h1)]
  · unfold extract_content
    rw [if_neg ((textPasses_false_iff r1 100).mpr h1),
      if_pos ((textPasses_iff r2 100).mpr h2)]
  · unfold extract_content
    rw [if_neg ((textPasses_false_iff r1 100).mpr h1),
      if_neg ((textPasses_false_iff r2 100).mpr h2),
      if_pos ((textPasses_iff r3 50).mpr h3)]

/-- Witness for C1: with a first strategy below threshold and a second one
above it, the second result is returned unchanged. -/
theorem extract_content_strategy_order_witness :
    strippedTextLen ({ text := some "too short" } : Content) ≤ 100 ∧
    100 < strippedTextLen ({ text := some (String.mk (List.replicate 101 'a')) } : Content) ∧
    extract_content ({ text := some "too short" } : Content)
        ({ text := some (String.mk (List.replicate 101 'a')) } : Content) Content.empty
      = ({ text := some (String.mk (List.replicate 101 'a')) } : Content) :=
  ⟨by decide, by decide,
    (extract_content_strategy_order _ _ _).2.1 (by decide) (by decide)⟩

/-- **C7.** When the three strategies all stay at or below their thresholds,
`extract_content` synthesizes a text from the last result's title and
description when one of them is non-empty, and otherwise returns the empty
result. -/
theorem extract_content_metadata_fallback (r1 r2 r3 : Content)
    (h1 : strippedTextLen r1 ≤ 100) (h2 : strippedTextLen r2 ≤ 100)
    (h3 : strippedTextLen r3 ≤ 50) :
    ((optTruthy r3.title || optTruthy r3.description) = true →
      extract_content r1 r2 r3 =
        { r3 with text := some ("Title: " ++ r3.title.getD "N/A" ++ "\nDescription: " ++ r3.description.getD "N/A") }) ∧
    ((optTruthy r3.title || optTruthy r3.description) = false →
      extract_content r1 r2 r3 = Content.empty) := by
  unfold extract_content
  rw [if_neg ((textPasses_false_iff r1 100).mpr h1),
    if_neg ((textPasses_false_iff r2 100).mpr h2),
    if_neg ((textPasses_false_iff r3 50).mpr h3)]
  constructor
  · intro h
    rw [if_pos h]
  · intro h
    rw [if_neg (by simp [h])]

/-- Witness for C7: all strategies fail but the BeautifulSoup result has a
title, so the synthesized title/description text is returned. -/
theorem extract_content_metadata_fallback_witness :
    extract_content Content.empty Content.empty ({ title := some "A page" } : Content)
      = { ({ title := some "A page" } : Content) with
          text := some ("Title: " ++ (some "A page").getD "N/A" ++ "\nDescription: " ++ (none : Option String).getD "N/A") } :=
  (extract_content_metadata_fallback Content.empty Content.empty _
    (by decide) (by decide) (by decide)).1 (by decide)

/-- `dict.get(k, '')` is truthy exactly when `dict.get(k)` is. -/
theorem optTruthy_getD (o : Option String) : pyTruthy (o.getD "") = optTruthy o := by
  cases o <;> simp [pyTruthy, optTruthy]

/-- **C2 (amended).** For a content dict whose body text strips to fewer
than 100 characters and whose title and description are both empty,
`generate_enhanced_summary` skips the model call (no effect is emitted) and
returns the fixed insufficient-content message. -/
theorem insufficient_content_skips_model (c : Content) (q ct : String)
    (model : String → ModelResult)
    (hlen : (pyStrip (c.text.getD "")).length < 100)
    (ht : optTruthy c.title = false) (hd : optTruthy c.description = false) :
    generate_enhanced_summary (.dict c) q ct model = (insufficientContentMsg q, []) := by
  have ht' : pyTruthy (c.title.getD "") = false := by rw [optTruthy_getD, ht]
  have hd' : pyTruthy (c.description.getD "") = false := by rw [optTruthy_getD, hd]
  simp only [generate_enhanced_summary]
  rw [if_pos hlen, if_neg (by simp [ht', hd'])]

/-- Witness for C2 (amended): an all-empty dict yields the fixed message
and no model call. -/
theorem insufficient_content_skips_model_witness :
    (pyStrip ((Content.empty).text.getD "")).length < 100 ∧
    generate_enhanced_summary (.dict Content.empty) "query" "content" (fun _ => .ok "anything")
      = (insufficientContentMsg "query", []) :=
  ⟨by decide,
    insufficient_content_skips_model Content.empty "query" "content" _
      (by decide) (by decide) (by decide)⟩

/-- **C2 (counterexample).** The claim as stated is false: a content dict
whose body text strips to fewer than 100 characters but which carries a
non-empty title does NOT get the insufficient-content message — the model
is called (the effect list is non-empty). -/
theorem short_content_with_title_calls_model :
    (pyStrip ((({ text := some "tiny", title := some "A title" } : Content)).text.getD "")).length < 100 ∧
    (generate_enhanced_summary (.dict { text := some "tiny", title := some "A title" }) "q" "content" (fun _ => .ok "")).1
      ≠ insufficientContentMsg "q" ∧
    (generate_enhanced_summary (.dict { text := some "tiny", title := some "A title" }) "q" "content" (fun _ => .ok "")).2
      ≠ ([] : List Effect) := by
  refine ⟨by decide, ?_, ?_⟩ <;> decide

/-- **C4 (counterexample).** The claim's related-topics tier does not exist
in the code: with empty abstract and definition but non-empty related
topics, `search_duckduckgo_instant` returns `None` instead of the
concatenated related-topics text. -/
theorem ddg_ignores_related_topics :
    (search_duckduckgo_instant
        { RelatedTopics := ["France is a country in Europe.", "Paris is its capital."] } "france").1 = none ∧
    ({ RelatedTopics := ["France is a country in Europe.", "Paris is its capital."] } : DDGResponse).RelatedTopics ≠ [] :=
  ⟨rfl, by decide⟩

/-- **C4 (amended).** The instant-answer fallback prefers the abstract
field; if the abstract is empty it uses the definition field; and when both
are empty it returns `None` — related topics are never consulted. -/
theorem ddg_abstract_then_definition (resp : DDGResponse) (k : String) :
    (optTruthy resp.Abstract = true →
      search_duckduckgo_instant resp k =
        (some { title := some (resp.Heading.getD k),
                text := some (resp.Abstract.getD ""),
                source_url := some (resp.AbstractURL.getD ""),
                source_name := some (resp.AbstractSource.getD "DuckDuckGo"),
                description := some ("Information about " ++ k) },
         [Effect.ddgSearch k])) ∧
    (optTruthy resp.Abstract = false → optTruthy resp.Definition = true →
      search_duckduckgo_instant resp k =
        (some { title := some k,
                text := some (resp.Definition.getD ""),
                source_url := some (resp.DefinitionURL.getD ""),
                source_name := some (resp.DefinitionSource.getD "DuckDuckGo"),
                description := some ("Definition of " ++ k) },
         [Effect.ddgSearch k])) ∧
    (optTruthy resp.Abstract = false → optTruthy resp.Definition = false →
      search_duckduckgo_instant resp k = (none, [Effect.ddgSearch k])) := by
  refine ⟨fun h => ?_, fun h1 h2 => ?_, fun h1 h2 => ?_⟩ <;>
    simp [search_duckduckgo_instant, *]

/-- Witness for C4 (amended): a response with only a definition set yields
the definition dict. -/
theorem ddg_abstract_then_definition_witness :
    search_duckduckgo_instant { Definition := some "A tree is a plant." } "tree"
      = (some { title := some "tree",
                text := some "A tree is a plant.",
                source_url := some "",
                source_name := some "DuckDuckGo",
                description := some "Definition of tree" },
         [Effect.ddgSearch "tree"]) :=
  (ddg_abstract_then_definition { Definition := some "A tree is a plant." } "tree").2.1
    (by decide) (by decide)

/-- **C3.** `RAGProcessor.__init__` never sets `self.session`, so
`search_wikipedia` hits `AttributeError` before any request and always
returns `None` with no Wikipedia query made: even when the Wikipedia API
holds a non-empty extract for the keyword, `get_content_from_keyword`
returns the DuckDuckGo result instead of the Wikipedia extract. -/
theorem wikipedia_search_never_returns_extract :
    (∀ (api : WikiApi) (k : String),
      search_wikipedia ragProcessorInit api k = (none, [])) ∧
    (WikiApi.mk (fun _ => ["Python (programming language)"])
        (fun _ => "Python is a high-level, general-purpose programming language.")).extract
        "Python (programming language)" ≠ "" ∧
    get_content_from_keyword ragProcessorInit
        (WikiApi.mk (fun _ => ["Python (programming language)"])
          (fun _ => "Python is a high-level, general-purpose programming language."))
        { Abstract := some "Python is an interpreted programming language.",
          Heading := some "Python" } "python"
      = (some (.dict { title := some "Python",
                       text := some "Python is an interpreted programming language.",
                       source_url := some "",
                       source_name := some "DuckDuckGo",
                       description := some "Information about python" }),
         [Effect.ddgSearch "python"]) :=
  ⟨fun _ _ => rfl, by decide, rfl⟩

/-- A closed environment used to instantiate endpoint theorems on concrete
requests. -/
def plainEnv : Env :=
  { self := ragProcessorInit,
    wiki := WikiApi.mk (fun _ => []) (fun _ => ""),
    ddg := {},
    urlExtract := fun _ => (Content.empty, Content.empty, Content.empty),
    model := fun _ => .ok "a summary" }

/-- **C5.** The endpoint selects exactly one source with priority
content > url > keyword: a selected content field makes the endpoint
process the direct content and ignore the url and keyword fields entirely;
a selected url field is used only when content is not selected, ignoring
keyword; keyword is used only when neither content nor url is selected. -/
theorem summarize_routing_priority (d : ReqData) (env : Env) :
    (∀ s, d.content.selected = some s →
      summarize_content (some d) env =
        finishSummary (.dict (directContentData (pyStrip s))) "direct content" "content" env.model ∧
      summarize_content (some d) env =
        summarize_content (some ⟨d.content, ReqField.absent, ReqField.absent⟩) env) ∧
    (d.content.selected = none → ∀ u, d.url.selected = some u →
      summarize_content (some d) env =
        summarize_content (some ⟨ReqField.absent, d.url, ReqField.absent⟩) env) ∧
    (d.content.selected = none → d.url.selected = none →
     ∀ k, d.keyword.selected = some k →
      summarize_content (some d) env =
        summarize_content (some ⟨ReqField.absent, ReqField.absent, d.keyword⟩) env) := by
  have habs : ReqField.absent.selected = none := rfl
  refine ⟨fun s hs => ⟨?_, ?_⟩, fun hc u hu => ?_, fun hc hu k hk => ?_⟩
  · simp [summarize_content, hs]
  · simp [summarize_content, hs, habs]
  · simp [summarize_content, hc, hu, habs]
  · simp [summarize_content, hc, hu, hk, habs]

/-- Witness for C5: a request carrying all three fields is processed as
direct content; dropping url and keyword does not change the response. -/
theorem summarize_routing_priority_witness :
    (ReqData.mk (.str "some direct text") (.str "http://example.com") (.str "a keyword")).content.selected
      = some "some direct text" ∧
    summarize_content (some (ReqData.mk (.str "some direct text") (.str "http://example.com") (.str "a keyword"))) plainEnv
      = summarize_content (some (ReqData.mk (.str "some direct text") ReqField.absent ReqField.absent)) plainEnv :=
  ⟨by decide,
    ((summarize_routing_priority (ReqData.mk (.str "some direct text") (.str "http://example.com") (.str "a keyword")) plainEnv).1
      "some direct text" (by decide)).2⟩

/-- **C9.** When the selected field is a keyword whose stripped length
exceeds 200, the endpoint answers HTTP 400 "Keyword is too long" with no
keyword search and no model call (empty effect list). -/
theorem keyword_too_long_rejected (d : ReqData) (env : Env) (k : String)
    (hc : d.content.selected = none) (hu : d.url.selected = none)
    (hk : d.keyword.selected = some k)
    (hlen : 200 < (pyStrip k).length) :
    summarize_content (some d) env =
      ({ statusCode := 400, status := "error",
         error := some "Keyword is too long (max 200 chars)" }, []) := by
  simp [summarize_content, hc, hu, hk, hlen]

set_option maxRecDepth 4000 in
/-- Witness for C9: a 201-character keyword is rejected without any
outbound call. -/
theorem keyword_too_long_rejected_witness :
    summarize_content
        (some (ReqData.mk ReqField.absent ReqField.absent (.str (String.mk (List.replicate 201 'k'))))) plainEnv
      = ({ statusCode := 400, status := "error",
           error := some "Keyword is too long (max 200 chars)" }, []) :=
  keyword_too_long_rejected _ plainEnv (String.mk (List.replicate 201 'k'))
    (by decide) (by decide) (by decide) (by decide)

/-- **C6.** For a URL whose fetch yields HTTP 404 in all three extraction
strategies, every strategy returns the empty result, `extract_content`
reports failure, and the endpoint returns a JSON error response with
status "error" (HTTP 400) rather than propagating an exception. -/
theorem url_404_reports_extraction_error (d : ReqData) (env : Env) (u : String)
    (f : FetchResult) (p1 p2 p3 : Content)
    (hc : d.content.selected = none) (hu : d.url.selected = some u)
    (hvalid : startsWithHttp (pyStrip u) = true)
    (h404 : f.statusCode = 404)
    (hext : env.urlExtract (pyStrip u) =
      (extract_with_newspaper f p1, extract_with_trafilatura f p2,
       extract_with_beautifulsoup f p3)) :
    summarize_content (some d) env =
      ({ statusCode := 400, status := "error",
         error := some ("Failed to extract content from URL: " ++ pyStrip u) },
       [Effect.urlFetch (pyStrip u)]) := by
  have he1 : extract_with_newspaper f p1 = Content.empty := by
    unfold extract_with_newspaper; rw [if_pos (by omega)]
  have he2 : extract_with_trafilatura f p2 = Content.empty := by
    unfold extract_with_trafilatura; rw [if_pos (by omega)]
  have he3 : extract_with_beautifulsoup f p3 = Content.empty := by
    unfold extract_with_beautifulsoup; rw [if_pos (by omega)]
  rw [he1, he2, he3] at hext
  have hfail : extract_content Content.empty Content.empty Content.empty = Content.empty := by decide
  simp [summarize_content, hc, hu, hvalid, hext, hfail, pyValTruthy]

/-- Witness for C6: a request for a URL whose three strategies all saw a
404 produces the extraction-failure error response. -/
theorem url_404_reports_extraction_error_witness :
    summarize_content
        (some (ReqData.mk ReqField.absent (.str "http://example.com/gone") ReqField.absent))
        { plainEnv with
          urlExtract := fun _ =>
            (extract_with_newspaper (FetchResult.mk 404 "") Content.empty,
             extract_with_trafilatura (FetchResult.mk 404 "") Content.empty,
             extract_with_beautifulsoup (FetchResult.mk 404 "") Content.empty) }
      = ({ statusCode := 400, status := "error",
           error := some ("Failed to extract content from URL: " ++ pyStrip "http://example.com/gone") },
         [Effect.urlFetch (pyStrip "http://example.com/gone")]) :=
  url_404_reports_extraction_error _ _ "http://example.com/gone"
    (FetchResult.mk 404 "") Content.empty Content.empty Content.empty
    (by decide) (by decide) (by decide) rfl rfl

/-- On a body text whose stripped length reaches the 100-character
threshold, `generate_enhanced_summary` goes straight to the model call and
the prompt embeds the `main_text[:4000]` slice of the body text. -/
theorem gen_dict_long (c : Content) (q ct : String) (m : String → ModelResult)
    (hlen : 100 ≤ (pyStrip (c.text.getD "")).length) :
    generate_enhanced_summary (.dict c) q ct m =
      modelCallStep
        (buildPrompt q ct (c.source_name.getD "Unknown Source") (c.title.getD "")
          (c.description.getD "") (pySlice (c.text.getD "") 4000))
        (c.source_name.getD "Unknown Source") (c.source_url.getD "") q m := by
  simp only [generate_enhanced_summary]
  rw [if_neg (by omega)]

/-- Below the threshold with a truthy title or description, the prompt
embeds the slice of the synthesized title/description text instead. -/
theorem gen_dict_short_with_title (c : Content) (q ct : String) (m : String → ModelResult)
    (hlen : (pyStrip (c.text.getD "")).length < 100)
    (ht : (pyTruthy (c.title.getD "") || pyTruthy (c.description.getD "")) = true) :
    generate_enhanced_summary (.dict c) q ct m =
      modelCallStep
        (buildPrompt q ct (c.source_name.getD "Unknown Source") (c.title.getD "")
          (c.description.getD "")
          (pySlice ("Title: " ++ c.title.getD "" ++ "\nDescription: " ++ c.description.getD "") 4000))
        (c.source_name.getD "Unknown Source") (c.source_url.getD "") q m := by
  simp only [generate_enhanced_summary]
  rw [if_pos hlen, if_pos ht]

/-- The model-call step always emits exactly one `modelCall` effect with
its prompt. -/
theorem modelCallStep_effects (p sn su q : String) (m : String → ModelResult) :
    (modelCallStep p sn su q m).2 = [Effect.modelCall p] := by
  unfold modelCallStep
  cases h : m p with
  | ok t => by_cases ht : pyTruthy t <;> simp [ht]
  | exn e => rfl

/-- The prompt's length is the length of the prompt with an empty slice
plus the slice's length. -/
theorem buildPrompt_length (q ct sn t d s : String) :
    (buildPrompt q ct sn t d s).length = (buildPrompt q ct sn t d "").length + s.length := by
  simp only [buildPrompt, String.length_append]
  have h0 : ("" : String).length = 0 := rfl
  rw [h0]
  omega

/-- **C10 (amended).** For body texts whose stripped length reaches the
100-character threshold, the prompt embeds exactly the first 4000
characters of the body text, and characters beyond position 4000 never
influence the result: two dicts agreeing on all other fields and on the
first 4000 characters of their texts produce identical outcomes. -/
theorem prompt_embeds_at_most_4000_chars (c c' : Content) (q ct : String)
    (m : String → ModelResult)
    (hlen : 100 ≤ (pyStrip (c.text.getD "")).length) :
    ((generate_enhanced_summary (.dict c) q ct m).2 =
      [Effect.modelCall
        (buildPrompt q ct (c.source_name.getD "Unknown Source") (c.title.getD "")
          (c.description.getD "") (pySlice (c.text.getD "") 4000))]) ∧
    (c.title = c'.title → c.description = c'.description →
     c.source_name = c'.source_name → c.source_url = c'.source_url →
     pySlice (c.text.getD "") 4000 = pySlice (c'.text.getD "") 4000 →
     100 ≤ (pyStrip (c'.text.getD "")).length →
     generate_enhanced_summary (.dict c) q ct m =
       generate_enhanced_summary (.dict c') q ct m) := by
  constructor
  · rw [gen_dict_long c q ct m hlen, modelCallStep_effects]
  · intro ht hd hsn hsu hsl hlen'
    rw [gen_dict_long c q ct m hlen, gen_dict_long c' q ct m hlen',
      ht, hd, hsn, hsu, hsl]

/-- Witness for C10 (amended): a 100-character body goes to the model with
its (complete) 4000-slice embedded in the prompt. -/
theorem prompt_embeds_at_most_4000_chars_witness :
    (generate_enhanced_summary
        (.dict { text := some (String.mk (List.replicate 100 'b')) }) "q" "url"
        (fun _ => .ok "S")).2 =
      [Effect.modelCall
        (buildPrompt "q" "url" "Unknown Source" "" ""
          (pySlice (String.mk (List.replicate 100 'b')) 4000))] :=
  (prompt_embeds_at_most_4000_chars
      { text := some (String.mk (List.replicate 100 'b')) }
      { text := some (String.mk (List.replicate 100 'b')) }
      "q" "url" (fun _ => .ok "S") (by decide)).1

/-! Auxiliary computations for the C10 counterexample: a text of 4000
spaces followed by 200 letters agrees with a text of 4000 spaces on the
first 4000 characters, yet they take different branches of
`generate_enhanced_summary` and get different prompts. -/

theorem dropWhile_replicate_space (n : Nat) (l : List Char) :
    (List.replicate n ' ' ++ l).dropWhile wsChar = l.dropWhile wsChar := by
  induction n with
  | zero => simp
  | succ n ih =>
    rw [List.replicate_succ, List.cons_append,
      List.dropWhile_cons_of_pos (by decide : wsChar ' ' = true), ih]

theorem dropWhile_replicate_x (n : Nat) :
    (List.replicate n 'x').dropWhile wsChar = List.replicate n 'x' := by
  cases n with
  | zero => rfl
  | succ n =>
    rw [List.replicate_succ, List.dropWhile_cons_of_neg (by decide)]

theorem trimTrailingWs_replicate_x : ∀ (n : Nat),
    trimTrailingWs (List.replicate n 'x') = List.replicate n 'x'
  | 0 => rfl
  | n + 1 => by
    rw [List.replicate_succ, trimTrailingWs_cons, trimTrailingWs_replicate_x n]
    cases n with
    | zero => decide
    | succ m => rw [List.replicate_succ]

theorem pyStrip_spaces_then_x :
    pyStrip (String.mk (List.replicate 4000 ' ' ++ List.replicate 200 'x'))
      = String.mk (List.replicate 200 'x') := by
  show (⟨trimTrailingWs ((List.replicate 4000 ' ' ++ List.replicate 200 'x').dropWhile wsChar)⟩ : String)
      = String.mk (List.replicate 200 'x')
  rw [dropWhile_replicate_space, dropWhile_replicate_x, trimTrailingWs_replicate_x]

theorem pyStrip_spaces_only :
    pyStrip (String.mk (List.replicate 4000 ' ')) = "" := by
  show (⟨trimTrailingWs ((List.replicate 4000 ' ').dropWhile wsChar)⟩ : String) = ""
  have h : (List.replicate 4000 ' ').dropWhile wsChar = ([] : List Char).dropWhile wsChar := by
    rw [← List.append_nil (List.replicate 4000 ' '), dropWhile_replicate_space]
  rw [h]
  rfl

theorem pySlice_spaces_then_x :
    pySlice (String.mk (List.replicate 4000 ' ' ++ List.replicate 200 'x')) 4000
      = String.mk (List.replicate 4000 ' ') := by
  show (⟨(List.replicate 4000 ' ' ++ List.replicate 200 'x').take 4000⟩ : String)
      = String.mk (List.replicate 4000 ' ')
  rw [List.take_left' (List.length_replicate 4000 ' ')]

theorem pySlice_spaces_only :
    pySlice (String.mk (List.replicate 4000 ' ')) 4000
      = String.mk (List.replicate 4000 ' ') := by
  show (⟨(List.replicate 4000 ' ').take 4000⟩ : String) = String.mk (List.replicate 4000 ' ')
  rw [List.take_of_length_le (by rw [List.length_replicate])]

/-- **C10 (counterexample).** The claim as stated is false: two content
dicts that agree on every field other than the body text and on the first
4000 characters of the body text can still produce different prompts,
because the characters beyond position 4000 decide whether the
short-content branch replaces the body with the title/description text. -/
theorem chars_beyond_4000_influence_prompt :
    pySlice (String.mk (List.replicate 4000 ' ' ++ List.replicate 200 'x')) 4000
      = pySlice (String.mk (List.replicate 4000 ' ')) 4000 ∧
    (generate_enhanced_summary
        (.dict { text := some (String.mk (List.replicate 4000 ' ' ++ List.replicate 200 'x')),
                 title := some "T" }) "q" "content" (fun _ => .ok "S")).2 ≠
      (generate_enhanced_summary
        (.dict { text := some (String.mk (List.replicate 4000 ' ')),
                 title := some "T" }) "q" "content" (fun _ => .ok "S")).2 := by
  constructor
  · rw [pySlice_spaces_then_x, pySlice_spaces_only]
  · have h1 := gen_dict_long
      { text := some (String.mk (List.replicate 4000 ' ' ++ List.replicate 200 'x')),
        title := some "T" } "q" "content" (fun _ => .ok "S")
      (by
        show 100 ≤ (pyStrip (String.mk (List.replicate 4000 ' ' ++ List.replicate 200 'x'))).length
        rw [pyStrip_spaces_then_x]
        show 100 ≤ (List.replicate 200 'x').length
        rw [List.length_replicate]
        omega)
    have h2 := gen_dict_short_with_title
      { text := some (String.mk (List.replicate 4000 ' ')), title := some "T" }
      "q" "content" (fun _ => .ok "S")
      (by

        show (pyStrip (String.mk (List.replicate 4000 ' '))).length < 100
        rw [pyStrip_spaces_only]
        decide)
      (by decide)
    simp only [Option.getD_some, Option.getD_none] at h1 h2
    rw [h1, h2, modelCallStep_effects, modelCallStep_effects]
    intro heq
    have hp := List.head_eq_of_cons_eq heq
    have hpe : (buildPrompt "q" "content" "Unknown Source" "T" ""
        (pySlice (String.mk (List.replicate 4000 ' ' ++ List.replicate 200 'x')) 4000)) =
        (buildPrompt "q" "content" "Unknown Source" "T" ""
          (pySlice ("Title: " ++ "T" ++ "\nDescription: " ++ "") 4000)) := by
      injection hp
    have hlen := congrArg String.length hpe
    have e1 := buildPrompt_length "q" "content" "Unknown Source" "T" ""
      (pySlice (String.mk (List.replicate 4000 ' ' ++ List.replicate 200 'x')) 4000)
    have e2 := buildPrompt_length "q" "content" "Unknown Source" "T" ""
      (pySlice ("Title: " ++ "T" ++ "\nDescription: " ++ "") 4000)
    rw [e1, e2, pySlice_spaces_then_x] at hlen
    have hl1 : (String.mk (List.replicate 4000 ' ')).length = 4000 := by
      show (List.replicate 4000 ' ').length = 4000
      rw [List.length_replicate]
    have hl2 : (pySlice ("Title: " ++ "T" ++ "\nDescription: " ++ "") 4000).length = 22 := by
      decide
    rw [hl1, hl2] at hlen
    omega

end ArticleSummary
